import Mathlib

/-!
Verification of the TPS Client API C example (`c_example.c`) from
GlobalPlatform/TPS-API-Reference-Implementations.

The example program builds a service selector for a ROT13 service, performs
service discovery, opens a session, prepares a fixed CBOR request in a
transaction buffer, executes the transaction and prints the response.  The
TPS client library itself (TPSC_ServiceDiscovery and friends) is not part of
the example source; its calls are embedded as oracles (arbitrary outcomes),
so theorems quantify over every possible outcome of the library calls.
-/

namespace TPS

/-- A semantic version triple, as in `TPSC_ServiceVersion`. -/
structure Version where
  major_version : Nat
  minor_version : Nat
  patch_version : Nat
deriving DecidableEq, Repr

/-- Lexicographic strict order on (major, minor, patch). -/
def Version.lt (a b : Version) : Bool :=
  (a.major_version < b.major_version) ||
  (a.major_version == b.major_version &&
    ((a.minor_version < b.minor_version) ||
     (a.minor_version == b.minor_version && a.patch_version < b.patch_version)))

/-- Lexicographic non-strict order on (major, minor, patch). -/
def Version.le (a b : Version) : Bool :=
  Version.lt a b || (a == b)

/-- One edge of a version range: an inclusive or exclusive bound,
as in the tagged union `TPSC_VersionBound`. -/
inductive VersionBound where
  | Inclusive (v : Version)
  | Exclusive (v : Version)
deriving DecidableEq, Repr

/-- The four-bound version range `TPSC_ServiceVersionRange`. -/
structure VersionRange where
  lowest_acceptable_version : VersionBound
  first_excluded_version : VersionBound
  last_excluded_version : VersionBound
  highest_acceptable_version : VersionBound
deriving DecidableEq, Repr

/-- Does version `v` lie at-or-above a lower edge?  An Inclusive lower edge
admits the exact triple, an Exclusive one does not. -/
def VersionBound.atOrAboveLower (b : VersionBound) (v : Version) : Bool :=
  match b with
  | .Inclusive u => Version.le u v
  | .Exclusive u => Version.lt u v

/-- Does version `v` lie at-or-below an upper edge?  An Inclusive upper edge
admits the exact triple, an Exclusive one does not. -/
def VersionBound.atOrBelowUpper (b : VersionBound) (v : Version) : Bool :=
  match b with
  | .Inclusive u => Version.le v u
  | .Exclusive u => Version.lt v u

/-- Modelled from the spec: the `accepts` predicate of a `VersionRange`
(spec section 4.1).  The implementation lives in the TPS client library,
which is not part of the example source.  A version is accepted iff it
falls within [lowest_acceptable, highest_acceptable] and does not fall
within the excluded window (first_excluded, last_excluded), each edge
admitting or rejecting its exact triple per its Inclusive/Exclusive tag;
comparison is lexicographic on (major, minor, patch). -/
def VersionRange.accepts (r : VersionRange) (v : Version) : Bool :=
  (r.lowest_acceptable_version.atOrAboveLower v &&
   r.highest_acceptable_version.atOrBelowUpper v) &&
  !(r.first_excluded_version.atOrAboveLower v &&
    r.last_excluded_version.atOrBelowUpper v)

/-- A 128-bit UUID, as 16 bytes (`TPSC_UUID`). -/
structure UUID where
  bytes : List Nat
deriving DecidableEq, Repr

/-- The all-zero UUID `TPSC_UUID_NIL`, used as a null filter. -/
def TPSC_UUID_NIL : UUID := ⟨List.replicate 16 0⟩

/-- The normative service id of the "GPP ROT13" service,
 87bae713-b08f-5e28-b9ee-4aa6e202440e. -/
def SERVICE_ID_GPP_ROT13 : UUID :=
  ⟨[0x87, 0xba, 0xe7, 0x13, 0xb0, 0x8f, 0x5e, 0x28,
    0xb9, 0xee, 0x4a, 0xa6, 0xe2, 0x02, 0x44, 0x0e]⟩

/-- A discovered service (`TPSC_ServiceIdentifier`): service id plus the
concrete instance to open a session against. -/
structure ServiceIdentifier where
  service_id : UUID
  service_instance : UUID
deriving DecidableEq, Repr

/-- The all-zero `TPSC_ServiceIdentifier`, the value of an element of a
zero-initialized static C array of `TPSC_ServiceIdentifier`. -/
def zeroServiceIdentifier : ServiceIdentifier :=
  { service_id := ⟨List.replicate 16 0⟩, service_instance := ⟨List.replicate 16 0⟩ }

/-- A discovery filter (`TPSC_ServiceSelector`). -/
structure ServiceSelector where
  service_id : UUID
  secure_component_instance : UUID
  secure_component_type : UUID
  service_version_range : VersionRange
deriving DecidableEq, Repr

/-- The selector built by `DoServiceDiscovery` (c_example.c lines 61-91),
field for field. -/
def discoverySelector : ServiceSelector :=
  { service_id := SERVICE_ID_GPP_ROT13,
    secure_component_instance := TPSC_UUID_NIL,
    secure_component_type := TPSC_UUID_NIL,
    service_version_range :=
      { lowest_acceptable_version := .Inclusive ⟨0, 0, 1⟩,
        first_excluded_version := .Inclusive ⟨1, 1, 1⟩,
        last_excluded_version := .Exclusive ⟨1, 2, 0⟩,
        highest_acceptable_version := .Exclusive ⟨2, 0, 0⟩ } }

/-- Status code `TPSC_SUCCESS`: 0 is the only non-error value of the
status-code taxonomy. -/
def TPSC_SUCCESS : Nat := 0

/-- The C macro `TRUE` (value 1), as returned by `PrepareMessage`. -/
def cTRUE : Int := 1

/-- The C macro `FALSE` (value 0), as returned by `PrepareMessage`. -/
def cFALSE : Int := 0

/-- The constant `TRANSACTION_BUFFER_SIZE` (256): the capacity of the
heap-allocated send and receive buffers. -/
def TRANSACTION_BUFFER_SIZE : Nat := 256

/-- The outcome of one call to the library function `TPSC_ServiceDiscovery`
(not part of the example source): the returned status code, the updated
in/out count, and the prefix of entries the call wrote into the
caller-supplied `services_available` array. -/
structure DiscoveryOutcome where
  retval : Nat
  no_of_services : Nat
  written : List ServiceIdentifier

/-- The call `memcpy dest src n`: overwrite the first `n` bytes of `dest` with the
first `n` bytes of `src`, leaving the rest of `dest` unchanged. -/
def memcpy (dest src : List Nat) (n : Nat) : List Nat :=
  src.take n ++ dest.drop n

/-- Overwrite a prefix of array `a` with the entries `w` (the writes a
discovery call performs on the array of the caller), leaving the tail
unchanged. -/
def writePrefix (a w : List ServiceIdentifier) : List ServiceIdentifier :=
  w.take a.length ++ a.drop w.length

/-- The function `DoServiceDiscovery` (c_example.c lines 58-101), with the library call
`TPSC_ServiceDiscovery` supplied as an oracle mapping (selector, capacity)
to an outcome.  The static array `services_available[3]` is
zero-initialized; after the call the function unconditionally takes
`services_available[0]` as the discovered service and returns the
status code of the library call unchanged. -/
def DoServiceDiscovery (oracle : ServiceSelector → Nat → DiscoveryOutcome) :
    Nat × ServiceIdentifier :=
  let selector := discoverySelector
  let services_available := List.replicate 3 zeroServiceIdentifier
  let r := oracle selector services_available.length
  let arrayAfter := writePrefix services_available r.written
  (r.retval, arrayAfter.getD 0 zeroServiceIdentifier)

/-- The function `PrepareMessage` (c_example.c lines 116-122): if `src_len ≤ dest_len`,
memcpy `src_len` bytes of `src` into `dest` and return TRUE; otherwise
return FALSE and touch nothing.  The result pairs the returned int with
the destination buffer after the call. -/
def PrepareMessage (src : List Nat) (src_len : Nat) (dest : List Nat)
    (dest_len : Nat) : Int × List Nat :=
  if src_len ≤ dest_len then
    (cTRUE, memcpy dest src src_len)
  else
    (cFALSE, dest)

/-- The fixed request payload `INPUT_MSG` (c_example.c lines 42-48):
CBOR for 10({1:"Thisgoestoeleven"}). -/
def INPUT_MSG : List Nat :=
  [0xCA, 0xA1, 0x01, 0x70,
   0x54, 0x68, 0x69, 0x73, 0x67, 0x6F, 0x65, 0x73, 0x74,
   0x6F, 0x65, 0x6C, 0x65, 0x76, 0x65, 0x6E]

/-- The expected response payload `EXPECT_MSG` (c_example.c lines 49-55):
CBOR for 10({1:"Guvftbrfgbryrira"}). -/
def EXPECT_MSG : List Nat :=
  [0xCA, 0xA1, 0x01, 0x70,
   0x47, 0x75, 0x76, 0x66, 0x74, 0x62, 0x72, 0x66, 0x67,
   0x62, 0x72, 0x79, 0x72, 0x69, 0x72, 0x61]

/-- Modelled from the spec: the ROT13 transform applied by the out-of-scope
GPP ROT13 service, on a single ASCII byte.  Letters are rotated by 13
places within their case; other bytes pass through. -/
def rot13Byte (b : Nat) : Nat :=
  if 65 ≤ b ∧ b ≤ 90 then 65 + (b - 65 + 13) % 26
  else if 97 ≤ b ∧ b ≤ 122 then 97 + (b - 97 + 13) % 26
  else b

/-- The byte values of the characters of a string. -/
def strBytes (s : String) : List Nat :=
  s.toList.map Char.toNat

/-- One unit of output produced by `PrintMessage`: the heading string, one
byte printed with `printf("%x, ", ...)`, or one `\n`. -/
inductive Token where
  | heading (s : String)
  | byte (b : Nat)
  | newline
deriving DecidableEq, Repr

/-- The body of the for loop of `PrintMessage` (c_example.c lines 106-112),
starting at loop index `i`: print each byte, and after the byte at index
`i` print a line break when `i % 8 == 0`. -/
def printLoopAux : Nat → List Nat → List Token
  | _, [] => []
  | i, b :: rest =>
      Token.byte b ::
        ((if i % 8 = 0 then [Token.newline] else []) ++ printLoopAux (i + 1) rest)

/-- The function `PrintMessage` (c_example.c lines 104-114): print the heading and a
newline, then the byte loop from index 0, then a final newline. -/
def PrintMessage (h : String) (msg : List Nat) : List Token :=
  Token.heading h :: Token.newline :: (printLoopAux 0 msg ++ [Token.newline])

/-- The bytes printed by a token stream, in order. -/
def bytesOf (ts : List Token) : List Nat :=
  ts.filterMap fun t =>
    match t with
    | Token.byte b => some b
    | _ => none

/-- Split a token stream into lines at each newline, keeping only the byte
values of each line; the trailing segment after the last newline is a line
too (it may be empty). -/
def lineGroups : List Token → List (List Nat)
  | [] => [[]]
  | Token.newline :: rest => [] :: lineGroups rest
  | Token.byte b :: rest =>
      match lineGroups rest with
      | [] => [[b]]
      | l :: ls => (b :: l) :: ls
  | Token.heading _ :: rest => lineGroups rest

/-- The line shape the spec-side reading of `PrintMessage` predicts for the
bytes after the first: full lines of eight, a final partial line of
`l.length % 8` bytes, and a final empty line when the count is a positive
multiple of eight (the loop broke right after the last byte). -/
def chunkTail (l : List Nat) : List (List Nat) :=
  if h : l.length < 8 then [l]
  else l.take 8 :: chunkTail (l.drop 8)
termination_by l.length
decreasing_by
  simp only [List.length_drop]
  omega

/-- The outcome of one call to the library function
`TPSC_ExecuteTransaction` (not part of the example source): the status
code and, on success, the response message bytes and size placed in the
receive buffer. -/
structure ExecOutcome where
  retval : Nat
  message : List Nat
  size : Nat

/-- The outcomes of all library calls `main` makes, one field per call
site, in the order the calls would occur. -/
structure Env where
  discovery : ServiceSelector → Nat → DiscoveryOutcome
  openSession : Nat
  initSend : Nat
  initRecv : Nat
  exec : ExecOutcome

/-- One observable event of a run of `main`: a library call returning a
status code, a `PrintMessage` call, a `PrepareMessage` call, or a bare
`printf` of an error message. -/
inductive Event where
  | callDiscovery (retval : Nat)
  | callOpenSession (retval : Nat)
  | callInitTransaction (which : Nat) (retval : Nat)
  | prepared (res : Int)
  | callExecute (retval : Nat)
  | printMsg (h : String) (msg : List Nat)
  | printErr (s : String)
deriving DecidableEq, Repr

/-- The function `main` (c_example.c lines 124-150) as an event trace, with the four
library calls drawn from `env`.  It prints the input message, then runs
discovery; on success opens a session; on success initializes the send and
receive transaction buffers (short-circuit: the second only after the
first succeeded); on success prepares the message (return value ignored)
and executes the transaction, printing the received message on success and
"Transaction failed!" on failure.  Only a discovery failure prints
"Service discovery failed"; no other failure prints anything. -/
def mainRun (env : Env) : List Event :=
  let send_msg := INPUT_MSG
  Event.printMsg "Input Message" send_msg ::
  (let disc := DoServiceDiscovery env.discovery
   Event.callDiscovery disc.1 ::
   (if disc.1 = TPSC_SUCCESS then
      Event.callOpenSession env.openSession ::
      (if env.openSession = TPSC_SUCCESS then
         Event.callInitTransaction 0 env.initSend ::
         (if env.initSend = TPSC_SUCCESS then
            Event.callInitTransaction 1 env.initRecv ::
            (if env.initRecv = TPSC_SUCCESS then
               Event.prepared
                 (PrepareMessage send_msg 20
                   (List.replicate TRANSACTION_BUFFER_SIZE 0)
                   TRANSACTION_BUFFER_SIZE).1 ::
               Event.callExecute env.exec.retval ::
               (if env.exec.retval = TPSC_SUCCESS then
                  [Event.printMsg "Received Message"
                    (env.exec.message.take env.exec.size)]
                else
                  [Event.printErr "Transaction failed!"])
             else [])
          else [])
       else [])
    else [Event.printErr "Service discovery failed"]))

/-- The error messages printed by a run, in order: the arguments of the
bare `printf` calls ("Service discovery failed", "Transaction failed!"). -/
def errorPrints (tr : List Event) : List String :=
  tr.filterMap fun e =>
    match e with
    | Event.printErr s => some s
    | _ => none

/-- The error messages a run with outcomes `env` actually prints: one for
a discovery failure, one for an execute failure, and none at all for an
open-session or initialize-transaction failure. -/
def expectedErrors (env : Env) : List String :=
  if (DoServiceDiscovery env.discovery).1 ≠ TPSC_SUCCESS then
    ["Service discovery failed"]
  else if env.openSession ≠ TPSC_SUCCESS then []
  else if env.initSend ≠ TPSC_SUCCESS then []
  else if env.initRecv ≠ TPSC_SUCCESS then []
  else if env.exec.retval ≠ TPSC_SUCCESS then ["Transaction failed!"]
  else []

/-- The value assigned to `send_buf.size` by `main` (c_example.c line 139):
the hard-coded literal 20. -/
def main_send_buf_size : Nat := 20

/-- The `PrepareMessage` call `main` makes (c_example.c line 138), for a
heap-allocated send buffer with arbitrary initial contents `init`: source
`send_msg` (= INPUT_MSG), hard-coded length 20, destination capacity
`TRANSACTION_BUFFER_SIZE`. -/
def mainPrepare (init : List Nat) : Int × List Nat :=
  PrepareMessage INPUT_MSG 20 init TRANSACTION_BUFFER_SIZE

/-! ## Theorems -/

/-- C1: the selector built by `DoServiceDiscovery` carries exactly the four
version bounds Inclusive(0,0,1), Inclusive(1,1,1), Exclusive(1,2,0),
Exclusive(2,0,0), and under the `accepts` predicate of the spec this range
rejects 1.1.1, accepts 1.1.0, accepts 1.2.0 and rejects 2.0.0. -/
theorem discoverySelector_version_range_c1 :
    discoverySelector.service_version_range =
      { lowest_acceptable_version := .Inclusive ⟨0, 0, 1⟩,
        first_excluded_version := .Inclusive ⟨1, 1, 1⟩,
        last_excluded_version := .Exclusive ⟨1, 2, 0⟩,
        highest_acceptable_version := .Exclusive ⟨2, 0, 0⟩ } ∧
    discoverySelector.service_version_range.accepts ⟨1, 1, 1⟩ = false ∧
    discoverySelector.service_version_range.accepts ⟨1, 1, 0⟩ = true ∧
    discoverySelector.service_version_range.accepts ⟨1, 2, 0⟩ = true ∧
    discoverySelector.service_version_range.accepts ⟨2, 0, 0⟩ = false := by
  refine ⟨rfl, ?_, ?_, ?_, ?_⟩ <;> decide

/-- C3: whenever `src_len ≤ dest_len` (taking `src_len` to be the length of
the source buffer), `PrepareMessage` returns TRUE and the first `src_len`
bytes of the destination afterwards are exactly the source bytes. -/
theorem PrepareMessage_roundtrip_c3 (src dest : List Nat)
    (h : src.length ≤ dest.length) :
    (PrepareMessage src src.length dest dest.length).1 = cTRUE ∧
    (PrepareMessage src src.length dest dest.length).2.take src.length = src := by
  unfold PrepareMessage memcpy
  rw [if_pos h]
  refine ⟨rfl, ?_⟩
  simp [List.take_append_eq_append_take, List.take_take]

/-- Witness for C3 at a concrete input. -/
theorem PrepareMessage_roundtrip_c3_witness :
    (PrepareMessage [7, 8, 9] 3 [0, 0, 0, 0, 0] 5).1 = cTRUE ∧
    (PrepareMessage [7, 8, 9] 3 [0, 0, 0, 0, 0] 5).2.take 3 = [7, 8, 9] :=
  PrepareMessage_roundtrip_c3 [7, 8, 9] [0, 0, 0, 0, 0] (by decide)

/-- C4: whenever `src_len > dest_len`, `PrepareMessage` returns FALSE and
the destination buffer is left completely unchanged (no bytes copied, no
truncation). -/
theorem PrepareMessage_reject_c4 (src dest : List Nat) (src_len dest_len : Nat)
    (h : dest_len < src_len) :
    (PrepareMessage src src_len dest dest_len).1 = cFALSE ∧
    (PrepareMessage src src_len dest dest_len).2 = dest := by
  unfold PrepareMessage
  rw [if_neg (by omega)]
  exact ⟨rfl, rfl⟩

/-- Witness for C4 at a concrete input. -/
theorem PrepareMessage_reject_c4_witness :
    (PrepareMessage [7, 8, 9] 3 [0, 0] 2).1 = cFALSE ∧
    (PrepareMessage [7, 8, 9] 3 [0, 0] 2).2 = [0, 0] :=
  PrepareMessage_reject_c4 [7, 8, 9] [0, 0] 3 2 (by decide)

/-- C5: `EXPECT_MSG` shares its four CBOR header bytes 0xCA 0xA1 0x01 0x70
with `INPUT_MSG` (in particular the first two bytes are 0xCA 0xA1), and its
16 text-string bytes are exactly the ROT13 transform of those of `INPUT_MSG`
("Thisgoestoeleven" maps to "Guvftbrfgbryrira"). -/
theorem EXPECT_MSG_rot13_of_INPUT_MSG_c5 :
    EXPECT_MSG.take 4 = INPUT_MSG.take 4 ∧
    INPUT_MSG.take 4 = [0xCA, 0xA1, 0x01, 0x70] ∧
    EXPECT_MSG.take 2 = [0xCA, 0xA1] ∧
    EXPECT_MSG.drop 4 = (INPUT_MSG.drop 4).map rot13Byte ∧
    INPUT_MSG.drop 4 = strBytes "Thisgoestoeleven" ∧
    EXPECT_MSG.drop 4 = strBytes "Guvftbrfgbryrira" := by
  refine ⟨rfl, rfl, rfl, ?_, ?_, ?_⟩ <;> decide

/-- C2: for every outcome of the `TPSC_ServiceDiscovery` oracle,
`DoServiceDiscovery` returns the status code of the oracle unchanged, and
when the oracle wrote nothing into the static array (as when it reports zero
matching services), `*service_id` receives the zero-initialized static
`TPSC_ServiceIdentifier` — no `no_of_services > 0` or success check guards
the copy. -/
theorem DoServiceDiscovery_unchecked_first_c2
    (oracle : ServiceSelector → Nat → DiscoveryOutcome) :
    (DoServiceDiscovery oracle).1 = (oracle discoverySelector 3).retval ∧
    ((oracle discoverySelector 3).written = [] →
      (DoServiceDiscovery oracle).2 = zeroServiceIdentifier) := by
  constructor
  · rfl
  · intro hw
    simp [DoServiceDiscovery, writePrefix, hw, List.replicate, List.getD]

/-- Witness for C2: an oracle reporting failure and writing nothing. -/
theorem DoServiceDiscovery_unchecked_first_c2_witness :
    (DoServiceDiscovery (fun _ _ => ⟨0xFFFF0008, 0, []⟩)).1 = 0xFFFF0008 ∧
    (DoServiceDiscovery (fun _ _ => ⟨0xFFFF0008, 0, []⟩)).2 =
      zeroServiceIdentifier :=
  ⟨(DoServiceDiscovery_unchecked_first_c2 (fun _ _ => ⟨0xFFFF0008, 0, []⟩)).1,
   (DoServiceDiscovery_unchecked_first_c2 (fun _ _ => ⟨0xFFFF0008, 0, []⟩)).2 rfl⟩

/-- C8: `INPUT_MSG` has exactly 20 bytes; the hard-coded 20 used in both
the `PrepareMessage` call and `send_buf.size = 20` equals that length; and
the `PrepareMessage` call of `main` copies all 20 bytes into the 256-byte send
buffer. -/
theorem main_request_exact_c8 (init : List Nat)
    (h : init.length = TRANSACTION_BUFFER_SIZE) :
    INPUT_MSG.length = 20 ∧
    main_send_buf_size = 20 ∧
    main_send_buf_size = INPUT_MSG.length ∧
    (mainPrepare init).1 = cTRUE ∧
    (mainPrepare init).2.take 20 = INPUT_MSG := by
  refine ⟨rfl, rfl, rfl, ?_, ?_⟩
  · unfold mainPrepare PrepareMessage
    rw [if_pos (by decide)]
  · unfold mainPrepare PrepareMessage memcpy
    rw [if_pos (by decide)]
    simp [List.take_append_eq_append_take, List.take_take, INPUT_MSG]

set_option maxRecDepth 4000 in
/-- Witness for C8 with a zero-filled 256-byte malloc result. -/
theorem main_request_exact_c8_witness :
    INPUT_MSG.length = 20 ∧
    main_send_buf_size = 20 ∧
    main_send_buf_size = INPUT_MSG.length ∧
    (mainPrepare (List.replicate 256 0)).1 = cTRUE ∧
    (mainPrepare (List.replicate 256 0)).2.take 20 = INPUT_MSG :=
  main_request_exact_c8 (List.replicate 256 0) (by simp [TRANSACTION_BUFFER_SIZE])

/-- C9: the single `PrepareMessage` call of `main` always returns TRUE
whatever the heap-allocated buffer held, since 20 ≤ TRANSACTION_BUFFER_SIZE = 256; the
FALSE branch is unreachable from `main`, so ignoring the return value
cannot hide a dropped or truncated request. -/
theorem main_prepare_always_true_c9 (init : List Nat) :
    (mainPrepare init).1 = cTRUE ∧ cTRUE ≠ cFALSE ∧
    20 ≤ TRANSACTION_BUFFER_SIZE := by
  refine ⟨?_, by decide, by decide⟩
  unfold mainPrepare PrepareMessage
  rw [if_pos (by decide)]

/-- A concrete discovered service used to exercise `mainRun`. -/
def discoveredService : ServiceIdentifier :=
  { service_id := SERVICE_ID_GPP_ROT13,
    service_instance := ⟨List.replicate 16 1⟩ }

/-- A discovery oracle that succeeds with one matching service. -/
def oracleFound : ServiceSelector → Nat → DiscoveryOutcome :=
  fun _ _ => ⟨TPSC_SUCCESS, 1, [discoveredService]⟩

/-- Library-call outcomes where discovery succeeds but `TPSC_OpenSession`
fails with a nonzero status code. -/
def envOpenFail : Env :=
  { discovery := oracleFound,
    openSession := 0xFFFF0000,
    initSend := TPSC_SUCCESS,
    initRecv := TPSC_SUCCESS,
    exec := ⟨TPSC_SUCCESS, EXPECT_MSG, 20⟩ }

/-- Library-call outcomes where every call succeeds. -/
def envAllSuccess : Env :=
  { discovery := oracleFound,
    openSession := TPSC_SUCCESS,
    initSend := TPSC_SUCCESS,
    initRecv := TPSC_SUCCESS,
    exec := ⟨TPSC_SUCCESS, EXPECT_MSG, 20⟩ }

/-- C6 counterexample: in the run where `TPSC_OpenSession` returns the
failure code 0xFFFF0000 (discovery having succeeded), the failing call is
in the trace but no error message at all is printed — the failure is
silently swallowed, contradicting the claim that every failing boundary
call surfaces its failure to an observer. -/
theorem main_silent_open_failure_c6_counterexample :
    Event.callOpenSession 0xFFFF0000 ∈ mainRun envOpenFail ∧
    0xFFFF0000 ≠ TPSC_SUCCESS ∧
    errorPrints (mainRun envOpenFail) = [] := by
  refine ⟨?_, by decide, ?_⟩ <;> decide

/-- C6 amended: the error messages a run prints are exactly one
"Service discovery failed" when discovery fails, exactly one
"Transaction failed!" when the transaction executes and fails, and
nothing otherwise — in particular a failing `TPSC_OpenSession` or
`TPSC_InitializeTransaction` call prints no error message. -/
theorem main_error_prints_characterized_c6 (env : Env) :
    errorPrints (mainRun env) = expectedErrors env := by
  by_cases h1 : (DoServiceDiscovery env.discovery).1 = TPSC_SUCCESS
  · by_cases h2 : env.openSession = TPSC_SUCCESS
    · by_cases h3 : env.initSend = TPSC_SUCCESS
      · by_cases h4 : env.initRecv = TPSC_SUCCESS
        · by_cases h5 : env.exec.retval = TPSC_SUCCESS
          · simp [mainRun, expectedErrors, errorPrints, h1, h2, h3, h4, h5]
          · simp [mainRun, expectedErrors, errorPrints, h1, h2, h3, h4, h5]
        · simp [mainRun, expectedErrors, errorPrints, h1, h2, h3, h4]
      · simp [mainRun, expectedErrors, errorPrints, h1, h2, h3]
    · simp [mainRun, expectedErrors, errorPrints, h1, h2]
  · simp [mainRun, expectedErrors, errorPrints, h1]

set_option maxRecDepth 8000 in
/-- C7: whenever `TPSC_ExecuteTransaction` is called in a run of `main`,
all four earlier library calls returned TPSC_SUCCESS, and the trace begins
with exactly the stages in order: print input, service discovery, session
open, the two transaction-buffer initializations, message preparation,
then the execute call. -/
theorem main_call_order_c7 (env : Env) (r : Nat)
    (h : Event.callExecute r ∈ mainRun env) :
    (DoServiceDiscovery env.discovery).1 = TPSC_SUCCESS ∧
    env.openSession = TPSC_SUCCESS ∧
    env.initSend = TPSC_SUCCESS ∧
    env.initRecv = TPSC_SUCCESS ∧
    ∃ rest,
      mainRun env =
        Event.printMsg "Input Message" INPUT_MSG ::
        Event.callDiscovery TPSC_SUCCESS ::
        Event.callOpenSession TPSC_SUCCESS ::
        Event.callInitTransaction 0 TPSC_SUCCESS ::
        Event.callInitTransaction 1 TPSC_SUCCESS ::
        Event.prepared cTRUE ::
        Event.callExecute env.exec.retval :: rest := by
  by_cases h1 : (DoServiceDiscovery env.discovery).1 = TPSC_SUCCESS
  · by_cases h2 : env.openSession = TPSC_SUCCESS
    · by_cases h3 : env.initSend = TPSC_SUCCESS
      · by_cases h4 : env.initRecv = TPSC_SUCCESS
        · refine ⟨h1, h2, h3, h4,
            (if env.exec.retval = TPSC_SUCCESS then
              [Event.printMsg "Received Message"
                (env.exec.message.take env.exec.size)]
             else [Event.printErr "Transaction failed!"]), ?_⟩
          simp [mainRun, h1, h2, h3, h4, PrepareMessage, cTRUE,
            TRANSACTION_BUFFER_SIZE]
        · simp [mainRun, h1, h2, h3, h4] at h
      · simp [mainRun, h1, h2, h3] at h
    · simp [mainRun, h1, h2] at h
  · simp [mainRun, h1] at h

set_option maxRecDepth 8000 in
/-- Witness for C7: the all-success run reaches the execute call with the
trace in stage order. -/
theorem main_call_order_c7_witness :
    (DoServiceDiscovery envAllSuccess.discovery).1 = TPSC_SUCCESS ∧
    envAllSuccess.openSession = TPSC_SUCCESS ∧
    envAllSuccess.initSend = TPSC_SUCCESS ∧
    envAllSuccess.initRecv = TPSC_SUCCESS ∧
    ∃ rest,
      mainRun envAllSuccess =
        Event.printMsg "Input Message" INPUT_MSG ::
        Event.callDiscovery TPSC_SUCCESS ::
        Event.callOpenSession TPSC_SUCCESS ::
        Event.callInitTransaction 0 TPSC_SUCCESS ::
        Event.callInitTransaction 1 TPSC_SUCCESS ::
        Event.prepared cTRUE ::
        Event.callExecute envAllSuccess.exec.retval :: rest :=
  main_call_order_c7 envAllSuccess TPSC_SUCCESS (by decide)

/-- Counter reformulation of the loop of `PrintMessage`: `c` bytes remain before
the next line break; a break resets the counter to 7. -/
def specLoop : Nat → List Nat → List Token
  | _, [] => []
  | c, b :: rest =>
      if c = 0 then Token.byte b :: Token.newline :: specLoop 7 rest
      else Token.byte b :: specLoop (c - 1) rest

theorem specLoop_nil (c : Nat) : specLoop c [] = [] := rfl

/-- The loop from index `i` equals the counter loop started at the number
of bytes left until the next index divisible by 8. -/
theorem printLoopAux_eq_specLoop (l : List Nat) :
    ∀ i, printLoopAux i l = specLoop ((8 - i % 8) % 8) l := by
  induction l with
  | nil => intro i; rfl
  | cons b rest ih =>
      intro i
      have hm : i % 8 = 0 ∨ i % 8 = 1 ∨ i % 8 = 2 ∨ i % 8 = 3 ∨ i % 8 = 4 ∨
          i % 8 = 5 ∨ i % 8 = 6 ∨ i % 8 = 7 := by omega
      have h2 : (i + 1) % 8 = (i % 8 + 1) % 8 := by omega
      rcases hm with h | h | h | h | h | h | h | h <;>
        simp [printLoopAux, specLoop, h, h2, ih]

/-- When at most `c` bytes remain, the counter loop emits them with no
line break. -/
theorem specLoop_all_bytes (l : List Nat) :
    ∀ c, l.length ≤ c → specLoop c l = l.map Token.byte := by
  induction l with
  | nil => intro c _; rfl
  | cons b rest ih =>
      intro c hc
      have hc0 : c ≠ 0 := by simp at hc; omega
      simp only [specLoop, if_neg hc0, List.map_cons]
      exact congrArg _ (ih (c - 1) (by simp at hc ⊢; omega))

/-- A break-free token stream is a single line. -/
theorem lineGroups_map_byte (l : List Nat) :
    lineGroups (l.map Token.byte) = [l] := by
  induction l with
  | nil => rfl
  | cons b rest ih => simp [lineGroups, ih]

/-- A list of length at least 8 splits into 8 head elements and a rest. -/
theorem eight_split (l : List Nat) (h : 8 ≤ l.length) :
    ∃ a b c d e f g k rest,
      l = a :: b :: c :: d :: e :: f :: g :: k :: rest := by
  rcases l with _ | ⟨a, l⟩; · simp at h
  rcases l with _ | ⟨b, l⟩; · simp at h
  rcases l with _ | ⟨c, l⟩; · simp at h
  rcases l with _ | ⟨d, l⟩; · simp at h
  rcases l with _ | ⟨e, l⟩; · simp at h
  rcases l with _ | ⟨f, l⟩; · simp at h
  rcases l with _ | ⟨g, l⟩; · simp at h
  rcases l with _ | ⟨k, l⟩; · simp at h
  exact ⟨a, b, c, d, e, f, g, k, l, rfl⟩

/-- Lines of the counter loop started at 7: eight bytes per line, the
last line partial, a trailing empty line when the byte count is a
positive multiple of eight. -/
theorem lineGroups_specLoop7 (l : List Nat) :
    lineGroups (specLoop 7 l) = chunkTail l := by
  by_cases h : l.length < 8
  · rw [specLoop_all_bytes l 7 (by omega), lineGroups_map_byte, chunkTail,
      dif_pos h]
  · obtain ⟨a, b, c, d, e, f, g, k, rest, heq⟩ := eight_split l (by omega)
    have hlt : rest.length < l.length := by
      rw [heq]; simp only [List.length_cons]; omega
    have ih := lineGroups_specLoop7 rest
    subst heq
    rw [chunkTail, dif_neg h]
    simp only [specLoop, lineGroups, List.take, List.drop]
    simp [lineGroups, ih]
termination_by l.length
decreasing_by exact hlt

/-- Every byte of the message is printed, in order. -/
theorem bytesOf_printLoopAux (l : List Nat) :
    ∀ i, bytesOf (printLoopAux i l) = l := by
  induction l with
  | nil => intro i; rfl
  | cons b rest ih =>
      intro i
      by_cases h : i % 8 = 0 <;>
        simp [printLoopAux, bytesOf, h, List.filterMap_append] <;>
        simpa [bytesOf] using ih (i + 1)

/-- The loop in break-position form: each byte at index `i`, followed by a
line break exactly when `i % 8 = 0`. -/
theorem printLoopAux_break_positions (l : List Nat) :
    ∀ i, printLoopAux i l =
      (l.enumFrom i).flatMap
        (fun p => Token.byte p.2 ::
          if p.1 % 8 = 0 then [Token.newline] else []) := by
  induction l with
  | nil => intro i; rfl
  | cons b rest ih =>
      intro i
      by_cases h : i % 8 = 0 <;>
        simp [printLoopAux, List.enumFrom, h, ih]

/-- C10: for every nonempty message, the byte loop of `PrintMessage` prints all
the bytes in order; a line break follows the byte at index `i` exactly
when `i % 8 = 0` (so after index 0 and after every eighth index); hence
the first line of byte output holds exactly one byte (`msg.take 1`) and
the following lines hold eight bytes each apart from the final partial
one (`chunkTail (msg.drop 1)`). -/
theorem PrintMessage_line_structure_c10 (msg : List Nat) (h : msg ≠ []) :
    bytesOf (printLoopAux 0 msg) = msg ∧
    printLoopAux 0 msg =
      (msg.enum).flatMap
        (fun p => Token.byte p.2 ::
          if p.1 % 8 = 0 then [Token.newline] else []) ∧
    lineGroups (printLoopAux 0 msg) = msg.take 1 :: chunkTail (msg.drop 1) := by
  refine ⟨bytesOf_printLoopAux msg 0, printLoopAux_break_positions msg 0, ?_⟩
  rcases msg with _ | ⟨b, rest⟩
  · exact absurd rfl h
  · rw [printLoopAux_eq_specLoop]
    simp only [Nat.zero_mod, Nat.sub_zero, Nat.mod_self]
    simp only [specLoop, if_pos rfl, lineGroups]
    rw [lineGroups_specLoop7]
    simp [List.take, List.drop]

/-- Witness for C10 on a concrete 10-byte message: the lines are one byte,
then eight, then the last byte. -/
theorem PrintMessage_line_structure_c10_witness :
    bytesOf (printLoopAux 0 [1, 2, 3, 4, 5, 6, 7, 8, 9, 10]) =
      [1, 2, 3, 4, 5, 6, 7, 8, 9, 10] ∧
    printLoopAux 0 [1, 2, 3, 4, 5, 6, 7, 8, 9, 10] =
      (([1, 2, 3, 4, 5, 6, 7, 8, 9, 10] : List Nat).enum).flatMap
        (fun p => Token.byte p.2 ::
          if p.1 % 8 = 0 then [Token.newline] else []) ∧
    lineGroups (printLoopAux 0 [1, 2, 3, 4, 5, 6, 7, 8, 9, 10]) =
      ([1, 2, 3, 4, 5, 6, 7, 8, 9, 10] : List Nat).take 1 ::
        chunkTail (([1, 2, 3, 4, 5, 6, 7, 8, 9, 10] : List Nat).drop 1) :=
  PrintMessage_line_structure_c10 [1, 2, 3, 4, 5, 6, 7, 8, 9, 10] (by decide)

end TPS
